import Mathlib

/-!
# Verification of the virga transport library façade and transport handlers

This file is a shallow embedding, in Lean 4, of the parts of the `virga`
Rust crate relevant to its specification: the read-buffering state machine
of the session façades (`VirgeClient` in `src/client/client_sync.rs` and
`VirgeServer` in `src/server/server_sync.rs` / `src/server/server_async.rs`,
whose `read`, `read_new_message`, `no_has_data`, `send`, `recv`, `write`
and `disconnect` bodies are line-for-line identical), the framed transport
handler (`XTransportHandler` in
`src/transport/xtransport_impl/transfer_handler.rs`) and the multiplexed
transport (`YamuxTransportHandler` in
`src/transport/yamux_impl/transfer_handler.rs`, and the async-trait variant
`YamuxTransport` in `src/transport/yamux_impl/mod.rs`).

Bytes are modelled as `Nat`; a payload is a `List Nat`.  External effects
(the underlying socket / protocol libraries) are modelled as explicit
oracles: the sequence of messages the session layer will deliver is a field
`msgs` of the façade state, and fallible library calls take their outcome as
an `Except`/`Bool` argument.  Every Rust method that mutates `&mut self` is
embedded as a function returning the result paired with the post-state, so
that the state after an early-`return Err(..)` is visible.
-/

namespace Virga

/-- A byte payload. -/
abbrev Bytes := List Nat

/-- The error taxonomy of `src/error/mod.rs` (`VirgeError`). -/
inductive VirgeError where
  | ConnectionError (msg : String)
  | TransportError (msg : String)
  | ConfigError (msg : String)
  | IoError
  | Other (msg : String)
  deriving DecidableEq, Repr

/-- Errors a façade method can return (`std::io::Error` values constructed in
`client_sync.rs` / `server_sync.rs`), keeping the data the claims need: the
kind, and for the disconnect refusal the unread byte count embedded in the
message `"Cannot disconnect: {n} bytes of unread data remaining"`. -/
inductive FacadeError where
  /-- Embeds `ErrorKind::NotConnected` -/
  | notConnected
  /-- Embeds `ErrorKind::Other`, `"Read error: {e}"` (recv failure inside read). -/
  | readError
  /-- Embeds `ErrorKind::Other`, `"Write error: {e}"`. -/
  | writeError
  /-- Embeds `Error::other("send error: {e}")`. -/
  | sendError
  /-- Embeds `Error::other("recv error: {e}")`. -/
  | recvError
  /-- Embeds `ErrorKind::Other`, `"Cannot disconnect: {n} bytes of unread data
  remaining"`; the count is kept as data. -/
  | cannotDisconnect (unread : Nat)
  /-- An error propagated by `?` from `transport_handler.disconnect()`. -/
  | transportDisconnectError
  deriving DecidableEq, Repr

/-- Embeds `ReadState` from `src/lib.rs`. -/
inductive ReadState where
  | Idle
  | Reading (total : Nat) (read : Nat)
  deriving DecidableEq, Repr

/-- The façade state: `VirgeClient` (client_sync.rs) and `VirgeServer`
(server_sync.rs, server_async.rs), whose data-path methods are identical.
The `transport_handler` field is replaced by its observable behaviour:
`msgs` is the sequence of payloads the transport layer will deliver via `recv`, in
order, and `sent` logs the payloads successfully handed to the transport
method `send`. -/
structure Facade where
  /-- Payloads the transport layer will deliver, in order; `recv` pops the
  head.  An empty queue models a transport whose `recv` fails. -/
  msgs : List Bytes
  /-- Payloads successfully passed to `transport_handler.send`. -/
  sent : List Bytes
  connected : Bool
  read_buffer : Bytes
  read_state : ReadState
  deriving DecidableEq, Repr

namespace Facade

/-- Embeds `VirgeClient::new` (connected := false) and `VirgeServer::new`
(connected := the `conn` argument): fresh read buffer and `Idle` state.
The inbound-message oracle is a parameter. -/
def new (msgs : List Bytes) (conn : Bool) : Facade :=
  { msgs := msgs, sent := [], connected := conn,
    read_buffer := [], read_state := .Idle }

/-- The method `recv` of the transport handler, as seen by the façade: deliver the next
message, or fail if the oracle has none. -/
def recvT (s : Facade) : Except Unit (Bytes × Facade) :=
  match s.msgs with
  | [] => .error ()
  | m :: rest => .ok (m, { s with msgs := rest })

/-- Embeds `VirgeClient::read_new_message` / `VirgeServer::read_new_message`
(client_sync.rs lines 104-124): receive one message `data`; if it fits in
the `k`-byte buffer, copy all of it; otherwise copy the first `k` bytes,
append the remainder to `read_buffer`, and set
`read_state := Reading { total := data.len(), read := k }`.  The returned
`Bytes` are the bytes written into the buffer of the caller (`Ok(n)` in Rust
returns their count `n`). -/
def read_new_message (s : Facade) (k : Nat) : Except FacadeError Bytes × Facade :=
  match s.recvT with
  | .error _ => (.error .readError, s)
  | .ok (data, s') =>
    if data.length ≤ k then
      (.ok data, s')
    else
      (.ok (data.take k),
       { s' with read_buffer := s'.read_buffer ++ data.drop k,
                 read_state := .Reading data.length k })

/-- Embeds `no_has_data` (client_sync.rs lines 127-129): the read buffer is empty
and the read state is `Idle`. -/
def no_has_data (s : Facade) : Bool :=
  s.read_buffer.isEmpty && decide (s.read_state = .Idle)

/-- Embeds `impl Read for VirgeClient::read` (client_sync.rs lines 132-169) =
`impl Read for VirgeServer::read` (server_sync.rs lines 104-142): the
read-buffering state machine.  `k` is the length of the buffer supplied by the caller. -/
def read (s : Facade) (k : Nat) : Except FacadeError Bytes × Facade :=
  if s.connected = false then
    (.error .notConnected, s)
  else
    match s.read_state with
    | .Idle => s.read_new_message k
    | .Reading total rd =>
      if s.read_buffer.isEmpty = false then
        let len := min s.read_buffer.length k
        let out := s.read_buffer.take len
        let newRead := rd + len
        (.ok out,
         { s with read_buffer := s.read_buffer.drop len,
                  read_state :=
                    if newRead = total then .Idle
                    else .Reading total newRead })
      else
        (.ok [], { s with read_state := .Idle })

/-- Embeds `VirgeClient::send` / `VirgeServer::send`: not-connected guard, then
delegate to the `send` of the transport handler, whose outcome is the oracle
`ok`; on success the transport returns `data.len()`. -/
def send (s : Facade) (ok : Bool) (data : Bytes) : Except FacadeError Nat × Facade :=
  if s.connected = false then
    (.error .notConnected, s)
  else if ok then
    (.ok data.length, { s with sent := s.sent ++ [data] })
  else
    (.error .sendError, s)

/-- Embeds `VirgeClient::recv` / `VirgeServer::recv`: not-connected guard, then
delegate to the `recv` of the transport handler. -/
def recv (s : Facade) : Except FacadeError Bytes × Facade :=
  if s.connected = false then
    (.error .notConnected, s)
  else
    match s.recvT with
    | .error _ => (.error .recvError, s)
    | .ok (m, s') => (.ok m, s')

/-- Embeds `impl Write for VirgeClient::write` (client_sync.rs lines 172-183):
not-connected guard, then transport `send`. -/
def write (s : Facade) (ok : Bool) (data : Bytes) : Except FacadeError Nat × Facade :=
  if s.connected = false then
    (.error .notConnected, s)
  else if ok then
    (.ok data.length, { s with sent := s.sent ++ [data] })
  else
    (.error .writeError, s)

/-- Embeds `VirgeClient::connect` (client_sync.rs lines 31-45): transport connect
(outcome `ok`), then set `connected := true`; on failure `?` propagates and
the flag is untouched. -/
def connect (s : Facade) (ok : Bool) : Except FacadeError Unit × Facade :=
  if ok then
    (.ok (), { s with connected := true })
  else
    (.error .transportDisconnectError, s)

/-- Embeds `VirgeClient::disconnect` (client_sync.rs lines 48-67) =
`VirgeServer::disconnect` (server_sync.rs lines 48-67): refuse when
`read_buffer` is non-empty, reporting its length; otherwise call the
`disconnect` of the transport handler (outcome `tres`), propagate its error with
`?` (leaving `connected` untouched), and only on success set
`connected := false`. -/
def disconnect (s : Facade) (tres : Except Unit Unit) :
    Except FacadeError Unit × Facade :=
  if s.read_buffer.isEmpty = false then
    (.error (.cannotDisconnect s.read_buffer.length), s)
  else
    match tres with
    | .error _ => (.error .transportDisconnectError, s)
    | .ok _ => (.ok (), { s with connected := false })

/-- The read-state invariant of the spec (§3): in `Reading {total, read}`
the overflow buffer holds exactly `total - read` bytes and `read < total`;
in `Idle` the overflow buffer is empty. -/
def inv (s : Facade) : Bool :=
  match s.read_state with
  | .Idle => s.read_buffer.isEmpty
  | .Reading total rd =>
    decide (s.read_buffer.length = total - rd) && decide (rd < total)

/-- The manual read loop of P2 / Scenario A in the spec: repeatedly call
`read` with a `k`-byte buffer until `no_has_data` reports no pending data,
collecting the chunk each call delivered.  `fuel` bounds the number of
iterations; the loop also stops if a read fails. -/
def readUntilDrained (k : Nat) : Nat → Facade → List Bytes × Facade
  | 0, s => ([], s)
  | fuel+1, s =>
    match s.read k with
    | (.ok c, s') =>
      if s'.no_has_data then ([c], s')
      else
        let r := readUntilDrained k fuel s'
        (c :: r.1, r.2)
    | (.error _, s') => ([], s')

end Facade

/-- Embeds `XTransportHandler` (src/transport/xtransport_impl/transfer_handler.rs):
an optional vsock stream and an optional `XTransport` protocol handle.  The
external library objects carry no state the claims depend on, so presence
is what is modelled. -/
structure XTransportHandler where
  stream : Option Unit
  transport : Option Unit
  deriving DecidableEq, Repr

namespace XTransportHandler

/-- Embeds `XTransportHandler::new`: both handles start out `None`. -/
def new : XTransportHandler := { stream := none, transport := none }

/-- Embeds `XTransportHandler::send` (transfer_handler.rs lines 66-78): if the
protocol handle is `None`, fail with `TransportError("XTransport not
connected")`; otherwise delegate to the library call `send_message`, whose
outcome is the oracle `sendRes`, and return `data.len()` on success. -/
def send (h : XTransportHandler) (sendRes : Except String Unit) (data : Bytes) :
    Except VirgeError Nat :=
  match h.transport with
  | none => .error (.TransportError "XTransport not connected")
  | some _ =>
    match sendRes with
    | .error e => .error (.Other ("XTransport send error: " ++ e))
    | .ok _ => .ok data.length

/-- Embeds `XTransportHandler::recv` (transfer_handler.rs lines 80-92): if the
protocol handle is `None`, fail with `TransportError("XTransport not
connected")`; otherwise delegate to the library call `recv_message` (oracle
`recvRes`). -/
def recv (h : XTransportHandler) (recvRes : Except String Bytes) :
    Except VirgeError Bytes :=
  match h.transport with
  | none => .error (.TransportError "XTransport not connected")
  | some _ =>
    match recvRes with
    | .error e => .error (.Other ("XTransport recv error: " ++ e))
    | .ok d => .ok d

/-- Embeds `XTransportHandler::is_connected`. -/
def is_connected (h : XTransportHandler) : Bool :=
  h.stream.isSome && h.transport.isSome

/-- Embeds `XTransportHandler::disconnect` (transfer_handler.rs lines 52-64): drop
the protocol handle, then shut the socket down (oracle `shutRes`); a
shutdown failure is wrapped and surfaced.  Note the handle is cleared
before the shutdown is attempted. -/
def disconnect (h : XTransportHandler) (shutRes : Except String Unit) :
    Except VirgeError Unit × XTransportHandler :=
  let h' := { h with transport := none }
  match h'.stream with
  | none => (.ok (), h')
  | some _ =>
    match shutRes with
    | .error e => (.error (.ConnectionError ("Failed to disconnect vsock: " ++ e)), h')
    | .ok _ => (.ok (), h')

end XTransportHandler

/-- Embeds `yamux::Mode`. -/
inductive Mode where
  | Client
  | Server
  deriving DecidableEq, Repr

/-- A yamux logical stream handle (`yamux::Stream`): an identity, whether
`close()` has been invoked on it, and the bytes written to it so far. -/
structure YStream where
  id : Nat
  closed : Bool
  written : Bytes
  deriving DecidableEq, Repr

/-- Embeds `YamuxTransportHandler`
(src/transport/yamux_impl/transfer_handler.rs): the single logical stream,
the connection handle (moved behind `Arc<Mutex<..>>`; presence modelled),
the background driver thread handle, its stop flag, and the yamux mode. -/
structure YamuxTransportHandler where
  yamux_stream : Option YStream
  connection : Option Unit
  driver_handle : Option Unit
  driver_stop_flag : Bool
  mode : Mode
  deriving DecidableEq, Repr

namespace YamuxTransportHandler

/-- Embeds `YamuxTransportHandler::new`. -/
def new (mode : Mode) : YamuxTransportHandler :=
  { yamux_stream := none, connection := none, driver_handle := none,
    driver_stop_flag := false, mode := mode }

/-- Embeds `YamuxTransportHandler::is_connected` (transfer_handler.rs lines
243-245). -/
def is_connected (h : YamuxTransportHandler) : Bool :=
  h.yamux_stream.isSome && h.connection.isSome

/-- Embeds `YamuxTransportHandler::get_or_create_stream` (transfer_handler.rs
lines 55-113): return the existing stream if there is one; otherwise fail
if there is no connection; otherwise obtain the one stream of the session from
the protocol (`poll_new_outbound` / `poll_next_inbound`, outcome modelled
by the oracle `fresh`). -/
def get_or_create_stream (h : YamuxTransportHandler)
    (fresh : Except String YStream) :
    Except VirgeError (YStream × YamuxTransportHandler) :=
  match h.yamux_stream with
  | some s => .ok (s, h)
  | none =>
    match h.connection with
    | none => .error (.TransportError "Yamux not initialized")
    | some _ =>
      match fresh with
      | .error e => .error (.TransportError ("Failed to open yamux stream: " ++ e))
      | .ok s => .ok (s, { h with yamux_stream := some s })

/-- Embeds `YamuxTransportHandler::send` (transfer_handler.rs lines 208-225):
not-connected guard, get the stream, `write_all` the full payload (outcome
`writeOk`); the `stream.close()` call is commented out in the source, so
the stream is left open; return `data.len()`. -/
def send (h : YamuxTransportHandler) (fresh : Except String YStream)
    (writeOk : Bool) (data : Bytes) :
    Except VirgeError Nat × YamuxTransportHandler :=
  if h.is_connected = false then
    (.error (.TransportError "Yamux transport not connected about send"), h)
  else
    match h.get_or_create_stream fresh with
    | .error e => (.error e, h)
    | .ok (s, h') =>
      if writeOk then
        (.ok data.length,
         { h' with yamux_stream := some { s with written := s.written ++ data } })
      else
        (.error (.Other "yamux send error"), h')

/-- Embeds `YamuxTransportHandler::recv` (transfer_handler.rs lines 227-241):
not-connected guard, get the stream, `read_to_end` into a buffer (outcome
and contents modelled by the oracle `readRes`); the stream handle itself is
not replaced or closed. -/
def recv (h : YamuxTransportHandler) (fresh : Except String YStream)
    (readRes : Except String Bytes) :
    Except VirgeError Bytes × YamuxTransportHandler :=
  if h.is_connected = false then
    (.error (.TransportError "Yamux transport not connected about recv"), h)
  else
    match h.get_or_create_stream fresh with
    | .error e => (.error e, h)
    | .ok (_, h') =>
      match readRes with
      | .error e => (.error (.Other ("yamux recv error: " ++ e)), h')
      | .ok buf => (.ok buf, h')

/-- Embeds `YamuxTransportHandler::disconnect` (transfer_handler.rs lines
189-206): set the driver stop flag, join and drop the driver thread handle
if one exists, clear the connection and the stream, and return `Ok(())`
unconditionally. -/
def disconnect (h : YamuxTransportHandler) :
    Except VirgeError Unit × YamuxTransportHandler :=
  (.ok (),
   { h with driver_stop_flag := true, driver_handle := none,
            connection := none, yamux_stream := none })

end YamuxTransportHandler

/-- The async-trait variant `YamuxTransport`
(src/transport/yamux_impl/mod.rs): same shape as the handler, without the
stop flag (its driver is aborted rather than signalled). -/
structure YamuxTransport where
  yamux_stream : Option YStream
  connection : Option Unit
  driver_handle : Option Unit
  is_server : Bool
  deriving DecidableEq, Repr

namespace YamuxTransport

/-- Embeds `YamuxTransport::is_connected` (mod.rs lines 219-221). -/
def is_connected (h : YamuxTransport) : Bool :=
  h.yamux_stream.isSome && h.connection.isSome

/-- Embeds `YamuxTransport::get_or_create_stream` (mod.rs lines 66-118): same
logic as the handler variant. -/
def get_or_create_stream (h : YamuxTransport) (fresh : Except String YStream) :
    Except VirgeError (YStream × YamuxTransport) :=
  match h.yamux_stream with
  | some s => .ok (s, h)
  | none =>
    match h.connection with
    | none => .error (.TransportError "Yamux not initialized")
    | some _ =>
      match fresh with
      | .error e => .error (.TransportError ("Failed to open yamux stream: " ++ e))
      | .ok s => .ok (s, { h with yamux_stream := some s })

/-- Embeds `YamuxTransport::send` (mod.rs lines 187-203): not-connected guard, get
the stream, `write_all` the payload (outcome `writeOk`), then
`stream.close().await?` — the stream is closed after every send (outcome of
the I/O outcome of the close modelled by `closeOk`; the close is invoked either
way, so the handle is marked closed in both branches). -/
def send (h : YamuxTransport) (fresh : Except String YStream)
    (writeOk closeOk : Bool) (data : Bytes) :
    Except VirgeError Unit × YamuxTransport :=
  if h.is_connected = false then
    (.error (.TransportError "Yamux transport not connected about send"), h)
  else
    match h.get_or_create_stream fresh with
    | .error e => (.error e, h)
    | .ok (s, h') =>
      if writeOk then
        let s' := { s with written := s.written ++ data, closed := true }
        if closeOk then
          (.ok (), { h' with yamux_stream := some s' })
        else
          (.error .IoError, { h' with yamux_stream := some s' })
      else
        (.error (.Other "yamux send error"), h')

end YamuxTransport

/-! ## Helper lemmas -/

/-- One step of `Facade.read` in the `Reading` state with a non-empty
overflow buffer: drain `min (length of buffer) k` bytes. -/
theorem Facade.read_reading_step (M sl : List Bytes) (b : Bytes)
    (total rd k : Nat) (hb : b ≠ []) :
    Facade.read ⟨M, sl, true, b, .Reading total rd⟩ k =
      (.ok (b.take (min b.length k)),
       ⟨M, sl, true, b.drop (min b.length k),
        if rd + min b.length k = total then .Idle
        else .Reading total (rd + min b.length k)⟩) := by
  simp [Facade.read, hb]

/-! ## Claim theorems -/

/-- C7: any data operation (read, send, recv, write) invoked on a façade
whose connected flag is false fails with the not-connected error and
returns the state unchanged (no side effects). -/
theorem facade_not_connected_guard (s : Facade) (h : s.connected = false) :
    (∀ k, s.read k = (.error .notConnected, s)) ∧
    (∀ ok data, s.send ok data = (.error .notConnected, s)) ∧
    (s.recv = (.error .notConnected, s)) ∧
    (∀ ok data, s.write ok data = (.error .notConnected, s)) := by
  refine ⟨fun k => ?_, fun ok data => ?_, ?_, fun ok data => ?_⟩ <;>
    simp [Facade.read, Facade.send, Facade.recv, Facade.write, h]

/-- Witness for C7 at a concrete disconnected façade. -/
theorem facade_not_connected_guard_witness :
    (Facade.new [[1, 2]] false).connected = false ∧
    (Facade.new [[1, 2]] false).read 4 =
      (.error .notConnected, Facade.new [[1, 2]] false) :=
  ⟨by decide, (facade_not_connected_guard (Facade.new [[1, 2]] false) (by decide)).1 4⟩

/-- C8: when the framed-transport protocol handle is uninitialized
(`transport` is `None`), every `send` and `recv` on `XTransportHandler`
returns the `TransportError "XTransport not connected"` — the error branch
is taken totally, for every oracle outcome and payload, without touching
the absent handle. -/
theorem xtransport_uninit_guard (h : XTransportHandler) (hn : h.transport = none) :
    (∀ sendRes data, h.send sendRes data =
        .error (.TransportError "XTransport not connected")) ∧
    (∀ recvRes, h.recv recvRes =
        .error (.TransportError "XTransport not connected")) := by
  constructor <;> intros <;> simp [XTransportHandler.send, XTransportHandler.recv, hn]

/-- Witness for C8 at the freshly constructed handler. -/
theorem xtransport_uninit_guard_witness :
    XTransportHandler.new.transport = none ∧
    XTransportHandler.new.send (.ok ()) [1, 2, 3] =
      .error (.TransportError "XTransport not connected") :=
  ⟨rfl, (xtransport_uninit_guard XTransportHandler.new rfl).1 (.ok ()) [1, 2, 3]⟩

/-- C10: `YamuxTransportHandler.disconnect` is total and idempotent: for
every handler state it returns `Ok`, sets the driver stop flag, clears the
driver handle, the connection and the stream (after which `is_connected`
is false), and a second disconnect — or a disconnect of a handler that was
never connected — again returns `Ok` and the same cleared state. -/
theorem yamux_handler_disconnect_total (h : YamuxTransportHandler) :
    h.disconnect =
      (.ok (), { h with driver_stop_flag := true, driver_handle := none,
                        connection := none, yamux_stream := none }) ∧
    (h.disconnect).2.is_connected = false ∧
    (h.disconnect).2.yamux_stream = none ∧
    (h.disconnect).2.connection = none ∧
    (h.disconnect).2.driver_handle = none ∧
    ((h.disconnect).2.disconnect = (.ok (), (h.disconnect).2)) := by
  obtain ⟨ys, conn, dh, flag, mode⟩ := h
  simp [YamuxTransportHandler.disconnect, YamuxTransportHandler.is_connected]

/-- Counterexample for C5: a connected façade with nothing pending, whose
transport-level disconnect reports an error.  The error is surfaced, but
the connected flag stays `true` — `disconnect` runs
`self.transport_handler.disconnect()?` before `self.connected = false`, so
the `?` early-returns with the flag untouched, contradicting the claim
that the flag is false afterwards regardless of the failure. -/
theorem facade_disconnect_error_cex :
    ((Facade.new [] true).disconnect (.error ())).1 =
      .error .transportDisconnectError ∧
    ((Facade.new [] true).disconnect (.error ())).2.connected = true :=
  ⟨rfl, rfl⟩

/-- C5 (amended): if the transport disconnect fails, the façade surfaces
the error and leaves the state — in particular the connected flag —
unchanged; the flag is cleared only when the transport disconnect
succeeds. -/
theorem facade_disconnect_error_surfaced (s : Facade) (hb : s.read_buffer = []) :
    s.disconnect (.error ()) = (.error .transportDisconnectError, s) ∧
    s.disconnect (.ok ()) = (.ok (), { s with connected := false }) := by
  simp [Facade.disconnect, hb]

/-- Witness for the amended C5 at a concrete connected façade. -/
theorem facade_disconnect_error_surfaced_witness :
    (Facade.new [] true).read_buffer = [] ∧
    (Facade.new [] true).disconnect (.error ()) =
      (.error .transportDisconnectError, Facade.new [] true) :=
  ⟨rfl, (facade_disconnect_error_surfaced (Facade.new [] true) rfl).1⟩

/-- Counterexample for C6: the async-trait variant `YamuxTransport::send`
(src/transport/yamux_impl/mod.rs) closes the logical stream after a
successful send (`stream.close().await?`), so it is not the case that
every multiplexed send leaves the stream open. -/
theorem yamux_transport_send_closes_cex :
    (YamuxTransport.send
        { yamux_stream := some { id := 0, closed := false, written := [] },
          connection := some (), driver_handle := none, is_server := false }
        (.ok { id := 0, closed := false, written := [] }) true true [1, 2, 3]) =
      (.ok (),
       { yamux_stream := some { id := 0, closed := true, written := [1, 2, 3] },
         connection := some (), driver_handle := none, is_server := false }) :=
  rfl

/-- C6 (amended): for the synchronous handler `YamuxTransportHandler`, a
successful `send` appends the full payload to the single logical stream
and does not close it — the stream handle (its identity and open/closed
status) is exactly the one created at connect/accept time; a failed write
and every `recv` also leave the stream handle unchanged.  The async-trait
`YamuxTransport::send`, by contrast, closes the stream after each send. -/
theorem yamux_handler_send_keeps_stream (h : YamuxTransportHandler)
    (str : YStream) (fresh : Except String YStream) (data : Bytes)
    (hs : h.yamux_stream = some str) (hc : h.connection = some ()) :
    h.send fresh true data =
      (.ok data.length,
       { h with yamux_stream := some { str with written := str.written ++ data } }) ∧
    h.send fresh false data = (.error (.Other "yamux send error"), h) ∧
    (∀ readRes, (h.recv fresh readRes).2.yamux_stream = some str) := by
  refine ⟨?_, ?_, ?_⟩
  · simp [YamuxTransportHandler.send, YamuxTransportHandler.is_connected,
          YamuxTransportHandler.get_or_create_stream, hs, hc]
  · simp [YamuxTransportHandler.send, YamuxTransportHandler.is_connected,
          YamuxTransportHandler.get_or_create_stream, hs, hc]
  · intro readRes
    cases readRes <;>
      simp [YamuxTransportHandler.recv, YamuxTransportHandler.is_connected,
            YamuxTransportHandler.get_or_create_stream, hs, hc]

/-- Witness for the amended C6 at a concrete connected handler. -/
theorem yamux_handler_send_keeps_stream_witness :
    ({ yamux_stream := some { id := 3, closed := false, written := [9] },
       connection := some (), driver_handle := some (),
       driver_stop_flag := false, mode := .Client } : YamuxTransportHandler).yamux_stream =
        some { id := 3, closed := false, written := [9] } ∧
    ({ yamux_stream := some { id := 3, closed := false, written := [9] },
       connection := some (), driver_handle := some (),
       driver_stop_flag := false, mode := .Client } : YamuxTransportHandler).connection = some () ∧
    ({ yamux_stream := some { id := 3, closed := false, written := [9] },
       connection := some (), driver_handle := some (),
       driver_stop_flag := false, mode := .Client } : YamuxTransportHandler).send
        (.error "unused") true [4, 5] =
      (.ok 2,
       { yamux_stream := some { id := 3, closed := false, written := [9, 4, 5] },
         connection := some (), driver_handle := some (),
         driver_stop_flag := false, mode := .Client }) :=
  ⟨rfl, rfl,
   (yamux_handler_send_keeps_stream
      { yamux_stream := some { id := 3, closed := false, written := [9] },
        connection := some (), driver_handle := some (),
        driver_stop_flag := false, mode := .Client }
      { id := 3, closed := false, written := [9] }
      (.error "unused") [4, 5] rfl rfl).1⟩

/-- Draining a non-empty overflow buffer `b` from the `Reading` state with
`rd + length b = total`: the loop reconstructs `b`, ends in the `Idle`
state with an empty buffer, and when `k` divides `length b` it takes
exactly `length b / k` reads of `k` bytes each. -/
theorem Facade.drain_spec (k : Nat) (hk : 1 ≤ k) :
    ∀ fuel (b : Bytes) (M sl : List Bytes) (total rd : Nat),
      b ≠ [] → rd + b.length = total → b.length ≤ fuel →
      (Facade.readUntilDrained k fuel ⟨M, sl, true, b, .Reading total rd⟩).1.flatten = b ∧
      (Facade.readUntilDrained k fuel ⟨M, sl, true, b, .Reading total rd⟩).2 =
        ⟨M, sl, true, [], .Idle⟩ ∧
      (k ∣ b.length →
        (Facade.readUntilDrained k fuel ⟨M, sl, true, b, .Reading total rd⟩).1.length
            = b.length / k ∧
        ∀ c ∈ (Facade.readUntilDrained k fuel ⟨M, sl, true, b, .Reading total rd⟩).1,
          c.length = k) := by
  intro fuel
  induction fuel with
  | zero =>
    intro b M sl total rd hb hrd hle
    exact absurd (List.length_eq_zero.mp (Nat.le_zero.mp hle)) hb
  | succ fuel ih =>
    intro b M sl total rd hb hrd hle
    have hstep := Facade.read_reading_step M sl b total rd k hb
    have hpos : 0 < b.length := List.length_pos.mpr hb
    by_cases hbk : b.length ≤ k
    · have hmin : min b.length k = b.length := Nat.min_eq_left hbk
      rw [hmin, hrd] at hstep
      simp only [if_pos rfl, List.take_length, List.drop_length] at hstep
      simp only [Facade.readUntilDrained, hstep]
      simp only [Facade.no_has_data, List.isEmpty_nil, decide_True, Bool.and_self,
        if_true]
      refine ⟨by simp, trivial, fun hdv => ?_⟩
      have hbl : b.length = k := Nat.le_antisymm hbk (Nat.le_of_dvd hpos hdv)
      refine ⟨?_, ?_⟩
      · simp [hbl, Nat.div_self (by omega : 0 < k)]
      · intro c hc
        simp only [List.mem_singleton] at hc
        rw [hc, hbl]
    · push_neg at hbk
      have hmin : min b.length k = k := Nat.min_eq_right hbk.le
      rw [hmin] at hstep
      have hne : ¬(rd + k = total) := by omega
      rw [if_neg hne] at hstep
      have hb' : b.drop k ≠ [] := by
        apply List.length_pos.mp
        rw [List.length_drop]
        omega
      have hrec := ih (b.drop k) M sl total (rd + k) hb'
        (by rw [List.length_drop]; omega) (by rw [List.length_drop]; omega)
      obtain ⟨hfl, hst, hdvd⟩ := hrec
      simp only [Facade.readUntilDrained, hstep]
      simp only [Facade.no_has_data]
      simp only [decide_eq_true_eq, Bool.and_eq_true, decide_eq_true_iff]
      rw [if_neg (by simp)]
      refine ⟨?_, hst, fun hdv => ?_⟩
      · simp only [List.flatten_cons, hfl, List.take_append_drop]
      · have hdv' : k ∣ (b.drop k).length := by
          rw [List.length_drop]
          exact Nat.dvd_sub' hdv dvd_rfl
        obtain ⟨hlen, hall⟩ := hdvd hdv'
        refine ⟨?_, ?_⟩
        · simp only [List.length_cons, hlen, List.length_drop]
          have hbk' : b.length - k + k = b.length := by omega
          rw [← Nat.add_div_right (b.length - k) (by omega : 0 < k), hbk']
        · intro c hc
          rcases List.mem_cons.mp hc with h | h
          · rw [h, List.length_take]
            omega
          · exact hall c h

/-- C1: for every payload `m` delivered by the session layer and every
read-buffer size `k ≥ 1`, repeatedly reading with a `k`-byte buffer until
`no_has_data` reports no pending data reconstructs `m` byte-for-byte; in
particular a 512-byte message read through an 8-byte buffer is drained in
exactly 64 reads of 8 bytes each. -/
theorem facade_chunked_read_equivalence (m : Bytes) (k : Nat) (hk : 1 ≤ k) :
    (Facade.readUntilDrained k (m.length + 1) (Facade.new [m] true)).1.flatten = m ∧
    (Facade.readUntilDrained k (m.length + 1) (Facade.new [m] true)).2.no_has_data = true ∧
    (m.length = 512 → k = 8 →
      (Facade.readUntilDrained k (m.length + 1) (Facade.new [m] true)).1.length = 64 ∧
      ∀ c ∈ (Facade.readUntilDrained k (m.length + 1) (Facade.new [m] true)).1,
        c.length = 8) := by
  by_cases hfit : m.length ≤ k
  · have hread : (Facade.new [m] true).read k = (.ok m, ⟨[], [], true, [], .Idle⟩) := by
      simp [Facade.new, Facade.read, Facade.read_new_message, Facade.recvT, hfit]
    simp only [Facade.readUntilDrained, hread]
    simp only [Facade.no_has_data, List.isEmpty_nil, decide_True, Bool.and_self, if_true]
    refine ⟨by simp, trivial, fun h512 hk8 => ?_⟩
    omega
  · push_neg at hfit
    have hread : (Facade.new [m] true).read k =
        (.ok (m.take k), ⟨[], [], true, m.drop k, .Reading m.length k⟩) := by
      simp [Facade.new, Facade.read, Facade.read_new_message, Facade.recvT,
        Nat.not_le.mpr hfit]
    have hb' : m.drop k ≠ [] := by
      apply List.length_pos.mp
      rw [List.length_drop]
      omega
    have hdr := Facade.drain_spec k hk m.length (m.drop k) [] [] m.length k hb'
      (by rw [List.length_drop]; omega) (by rw [List.length_drop]; omega)
    obtain ⟨hfl, hst, hdvd⟩ := hdr
    simp only [Facade.readUntilDrained, hread]
    simp only [Facade.no_has_data]
    simp only [decide_eq_true_eq, Bool.and_eq_true, decide_eq_true_iff]
    rw [if_neg (by simp)]
    refine ⟨?_, ?_, fun h512 hk8 => ?_⟩
    · simp only [List.flatten_cons, hfl, List.take_append_drop]
    · rw [hst]
      simp [Facade.no_has_data]
    · subst hk8
      have hdv : 8 ∣ (m.drop 8).length := by
        rw [List.length_drop, h512]
        decide
      obtain ⟨hlen, hall⟩ := hdvd hdv
      rw [h512] at hlen hall
      refine ⟨?_, ?_⟩
      · simp only [List.length_cons, hlen, List.length_drop, h512]
      · intro c hc
        rw [h512] at hc
        rcases List.mem_cons.mp hc with h | h
        · rw [h, List.length_take]
          omega
        · exact hall c h

/-- Witness for C1: Scenario A at a concrete 512-byte payload and an
8-byte read buffer. -/
theorem facade_chunked_read_equivalence_witness :
    1 ≤ 8 ∧
    (Facade.readUntilDrained 8 ((List.replicate 512 0).length + 1)
        (Facade.new [List.replicate 512 0] true)).1.flatten = List.replicate 512 0 :=
  ⟨by decide, (facade_chunked_read_equivalence (List.replicate 512 0) 8 (by decide)).1⟩

/-- C9: on a connected façade in `Idle` state (with, per the invariant, an
empty overflow buffer), a `read` with a zero-length buffer when the
session delivers a non-empty message `d` returns zero bytes, stores all of
`d` in the overflow buffer, and sets the state to
`Reading {total := length d, read := 0}`; subsequent reads with any
positive buffer size recover the full message. -/
theorem facade_read_zero_buffer (s : Facade) (d : Bytes) (rest : List Bytes)
    (hc : s.connected = true) (hs : s.read_state = .Idle)
    (hb : s.read_buffer = []) (hm : s.msgs = d :: rest) (hd : d ≠ []) :
    s.read 0 = (.ok [], { s with msgs := rest, read_buffer := d,
                                 read_state := .Reading d.length 0 }) ∧
    (∀ k, 1 ≤ k →
      (Facade.readUntilDrained k d.length
        { s with msgs := rest, read_buffer := d,
                 read_state := .Reading d.length 0 }).1.flatten = d ∧
      (Facade.readUntilDrained k d.length
        { s with msgs := rest, read_buffer := d,
                 read_state := .Reading d.length 0 }).2.no_has_data = true) := by
  obtain ⟨M, sl, c, rb, rs⟩ := s
  subst hc; subst hs; subst hb; subst hm
  have hpos : 0 < d.length := List.length_pos.mpr hd
  constructor
  · simp [Facade.read, Facade.read_new_message, Facade.recvT, Nat.not_le.mpr hpos]
  · intro k hk
    have hdr := Facade.drain_spec k hk d.length d rest sl d.length 0 hd
      (by omega) (le_refl _)
    obtain ⟨hfl, hst, _⟩ := hdr
    refine ⟨hfl, ?_⟩
    rw [hst]
    simp [Facade.no_has_data]

/-- Witness for C9 at a concrete façade and 3-byte message. -/
theorem facade_read_zero_buffer_witness :
    (Facade.new [[5, 6, 7]] true).read 0 =
      (.ok [], { Facade.new [[5, 6, 7]] true with
                   msgs := [], read_buffer := [5, 6, 7],
                   read_state := .Reading 3 0 }) :=
  (facade_read_zero_buffer (Facade.new [[5, 6, 7]] true) [5, 6, 7] []
    rfl rfl rfl rfl (by decide)).1

/-- C4: on a façade satisfying the read-state invariant whose read state is
not `Idle` or whose overflow buffer is non-empty, `disconnect` is refused
for every transport outcome: it reports the unread byte count (which under
the invariant equals `total - read` in the `Reading` state) and returns the
state — connected flag, transport oracle, read state, overflow buffer —
unchanged; once the buffer is drained, a disconnect whose transport
teardown succeeds returns `Ok` and clears the connected flag. -/
theorem facade_disconnect_refusal (s : Facade) (hinv : s.inv = true)
    (hpend : s.read_state ≠ .Idle ∨ s.read_buffer ≠ []) :
    (∀ tres, s.disconnect tres =
        (.error (.cannotDisconnect s.read_buffer.length), s)) ∧
    (∀ total rd, s.read_state = .Reading total rd →
        s.read_buffer.length = total - rd) ∧
    (∀ s₂ : Facade, s₂.read_buffer = [] →
        s₂.disconnect (.ok ()) = (.ok (), { s₂ with connected := false })) := by
  have hbne : s.read_buffer ≠ [] := by
    rcases hpend with hst | hb
    · cases hrs : s.read_state with
      | Idle => exact absurd hrs hst
      | Reading total rd =>
        simp [Facade.inv, hrs] at hinv
        intro hnil
        rw [hnil] at hinv
        simp at hinv
        omega
    · exact hb
  refine ⟨fun tres => ?_, fun total rd hrs => ?_, fun s₂ hb2 => ?_⟩
  · simp [Facade.disconnect, hbne]
  · simp [Facade.inv, hrs] at hinv
    exact hinv.1
  · simp [Facade.disconnect, hb2]

/-- Witness for C4: a façade in `Reading {total := 2, read := 1}` with one
pending byte refuses to disconnect, reporting 1 = 2 - 1 unread bytes. -/
theorem facade_disconnect_refusal_witness :
    (⟨[], [], true, [7], .Reading 2 1⟩ : Facade).inv = true ∧
    ((⟨[], [], true, [7], .Reading 2 1⟩ : Facade).read_state ≠ .Idle ∨
      (⟨[], [], true, [7], .Reading 2 1⟩ : Facade).read_buffer ≠ []) ∧
    (⟨[], [], true, [7], .Reading 2 1⟩ : Facade).disconnect (.ok ()) =
      (.error (.cannotDisconnect 1), ⟨[], [], true, [7], .Reading 2 1⟩) :=
  ⟨by decide, Or.inr (by decide),
   (facade_disconnect_refusal ⟨[], [], true, [7], .Reading 2 1⟩ (by decide)
      (Or.inr (by decide))).1 (.ok ())⟩

/-- C2: `read` on a connected façade implements the specified state
machine.  In `Idle` it receives one message `data`: if `data` fits in the
`k`-byte buffer it returns all of it and stays `Idle`; otherwise it
returns the first `k` bytes, stores the remainder in the overflow buffer
and moves to `Reading {total := length data, read := k}`.  In
`Reading {total, read}` with a non-empty overflow buffer it drains
`min (length of buffer) k` bytes, advances `read` by that amount, and
returns to `Idle` exactly when the advanced `read` equals `total`; with an
empty overflow buffer it resets to `Idle` and returns zero bytes. -/
theorem facade_read_state_machine (s : Facade) (k : Nat) (hc : s.connected = true) :
    (∀ data rest, s.read_state = .Idle → s.msgs = data :: rest →
        data.length ≤ k →
        s.read k = (.ok data, { s with msgs := rest })) ∧
    (∀ data rest, s.read_state = .Idle → s.read_buffer = [] →
        s.msgs = data :: rest → k < data.length →
        s.read k = (.ok (data.take k),
          { s with msgs := rest, read_buffer := data.drop k,
                   read_state := .Reading data.length k })) ∧
    (∀ total rd, s.read_state = .Reading total rd → s.read_buffer ≠ [] →
        s.read k = (.ok (s.read_buffer.take (min s.read_buffer.length k)),
          { s with read_buffer := s.read_buffer.drop (min s.read_buffer.length k),
                   read_state :=
                     if rd + min s.read_buffer.length k = total then .Idle
                     else .Reading total (rd + min s.read_buffer.length k) })) ∧
    (∀ total rd, s.read_state = .Reading total rd → s.read_buffer = [] →
        s.read k = (.ok [], { s with read_state := .Idle })) := by
  obtain ⟨M, sl, c, rb, rs⟩ := s
  dsimp only at hc ⊢
  subst hc
  refine ⟨?_, ?_, ?_, ?_⟩
  · intro data rest hrs hm hfit
    subst hrs; subst hm
    simp [Facade.read, Facade.read_new_message, Facade.recvT, hfit]
  · intro data rest hrs hb hm hlt
    subst hrs; subst hb; subst hm
    simp [Facade.read, Facade.read_new_message, Facade.recvT, Nat.not_le.mpr hlt]
  · intro total rd hrs hb
    subst hrs
    simp [Facade.read, hb]
  · intro total rd hrs hb
    subst hrs; subst hb
    simp [Facade.read]

/-- Witness for C2 at a concrete connected façade: a 3-byte message read
through a 2-byte buffer enters `Reading {total := 3, read := 2}`. -/
theorem facade_read_state_machine_witness :
    (Facade.new [[1, 2, 3]] true).connected = true ∧
    (Facade.new [[1, 2, 3]] true).read 2 =
      (.ok [1, 2],
       { Facade.new [[1, 2, 3]] true with
           msgs := [], read_buffer := [3], read_state := .Reading 3 2 }) :=
  ⟨rfl,
   (facade_read_state_machine (Facade.new [[1, 2, 3]] true) 2 rfl).2.1
     [1, 2, 3] [] rfl rfl rfl (by decide)⟩

/-- C3: the read-state invariant — `Reading {total, read}` implies the
overflow buffer holds exactly `total - read` bytes with `read < total`,
and `Idle` implies the overflow buffer is empty — holds after construction
and is preserved by every façade operation; moreover, on a connected
façade in `Reading` state, a `read` moves back to `Idle` exactly when the
advanced `read` count equals `total`, which is exactly when the overflow
buffer is drained. -/
theorem facade_invariant_preserved (s : Facade) (hinv : s.inv = true) :
    (∀ msgs conn, (Facade.new msgs conn).inv = true) ∧
    (∀ k, ((s.read k).2).inv = true) ∧
    (∀ ok data, ((s.send ok data).2).inv = true) ∧
    (∀ ok data, ((s.write ok data).2).inv = true) ∧
    (((s.recv).2).inv = true) ∧
    (∀ ok, ((s.connect ok).2).inv = true) ∧
    (∀ tres, ((s.disconnect tres).2).inv = true) ∧
    (∀ k total rd, s.connected = true → s.read_state = .Reading total rd →
        ((((s.read k).2).read_state = .Idle) ↔
            rd + min s.read_buffer.length k = total) ∧
        ((((s.read k).2).read_state = .Idle) ↔
            ((s.read k).2).read_buffer = [])) := by
  obtain ⟨M, sl, c, rb, rs⟩ := s
  refine ⟨?_, ?_, ?_, ?_, ?_, ?_, ?_, ?_⟩
  · intro msgs conn
    simp [Facade.new, Facade.inv]
  · intro k
    cases c with
    | false => simpa [Facade.read] using hinv
    | true =>
      cases rs with
      | Idle =>
        simp [Facade.inv] at hinv
        subst hinv
        cases M with
        | nil => simp [Facade.read, Facade.read_new_message, Facade.recvT, Facade.inv]
        | cons data rest =>
          by_cases hfit : data.length ≤ k
          · simp [Facade.read, Facade.read_new_message, Facade.recvT, Facade.inv, hfit]
          · simp [Facade.read, Facade.read_new_message, Facade.recvT, Facade.inv, hfit]
            omega
      | Reading total rd =>
        simp [Facade.inv] at hinv
        obtain ⟨hlen, hlt⟩ := hinv
        have hbne : rb ≠ [] := by
          intro hnil
          rw [hnil] at hlen
          simp at hlen
          omega
        by_cases hdone : rd + min rb.length k = total
        · simp [Facade.read, hbne, hdone, Facade.inv, List.isEmpty_iff, List.drop_eq_nil_iff]
          omega
        · simp [Facade.read, hbne, hdone, Facade.inv]
          omega
  · intro ok data
    cases c <;> cases ok <;> simpa [Facade.send] using hinv
  · intro ok data
    cases c <;> cases ok <;> simpa [Facade.write] using hinv
  · cases c with
    | false => simpa [Facade.recv] using hinv
    | true =>
      cases M with
      | nil => simpa [Facade.recv, Facade.recvT] using hinv
      | cons m rest => simpa [Facade.recv, Facade.recvT] using hinv
  · intro ok
    cases ok <;> simpa [Facade.connect] using hinv
  · intro tres
    by_cases hb : rb.isEmpty = false
    · simpa [Facade.disconnect, hb] using hinv
    · cases tres with
      | error e => simpa [Facade.disconnect, hb] using hinv
      | ok v => simpa [Facade.disconnect, hb] using hinv
  · intro k total rd hc hrs
    dsimp only at hc hrs
    subst hc; subst hrs
    simp [Facade.inv] at hinv
    obtain ⟨hlen, hlt⟩ := hinv
    have hbne : rb ≠ [] := by
      intro hnil
      rw [hnil] at hlen
      simp at hlen
      omega
    by_cases hdone : rd + min rb.length k = total
    · simp [Facade.read, hbne, hdone, List.drop_eq_nil_iff]
      omega
    · simp [Facade.read, hbne, hdone, List.drop_eq_nil_iff]
      omega

/-- Witness for C3 at a concrete façade satisfying the invariant. -/
theorem facade_invariant_preserved_witness :
    (⟨[[4, 5]], [], true, [9], .Reading 3 2⟩ : Facade).inv = true ∧
    (((⟨[[4, 5]], [], true, [9], .Reading 3 2⟩ : Facade).read 1).2).inv = true :=
  ⟨by decide,
   (facade_invariant_preserved ⟨[[4, 5]], [], true, [9], .Reading 3 2⟩
      (by decide)).2.1 1⟩

end Virga
